import Mathlib

set_option maxRecDepth 4096

namespace ModelChurn

/-! Section: String helpers modelling Python's string operations -/

/-- Python `str.lower()` (ASCII range, as exercised by this repository). -/
def pyLower (s : String) : String := String.mk (s.toList.map Char.toLower)

/-- A word character for the regex `\w`: alphanumeric or underscore. -/
def isWordChar (c : Char) : Bool := c.isAlphanum || c == '_'

/-- Model of `re.sub` with pattern caret-w-s: keep word characters and whitespace. -/
def stripPunct (s : String) : String :=
  String.mk (s.toList.filter (fun c => isWordChar c || c.isWhitespace))

/-- Accumulating scan for `str.split()`: `acc` holds the current word reversed. -/
def splitWSAux : List Char → List Char → List String
  | [], [] => []
  | [], acc => [String.mk acc.reverse]
  | c :: cs, acc =>
      if c.isWhitespace then
        match acc with
        | [] => splitWSAux cs []
        | _ => String.mk acc.reverse :: splitWSAux cs []
      else splitWSAux cs (c :: acc)

/-- Python `str.split()` with no argument: split on whitespace runs, drop empties. -/
def pySplit (s : String) : List String := splitWSAux s.toList []

/-- Model of `re.sub` with pattern caret-a-z: keep only lowercase ASCII letters. -/
def cleanWord (w : String) : String :=
  String.mk (w.toList.filter (fun c => 97 ≤ c.toNat && c.toNat ≤ 122))

/-- Does `n` occur at the head of `l`? (helper for substring search). -/
def leadEq : List Char → List Char → Bool
  | [], _ => true
  | _ :: _, [] => false
  | a :: as, b :: bs => a == b && leadEq as bs

/-- Scan for an occurrence of `n` anywhere in `l`. -/
def subScan (n : List Char) : List Char → Bool
  | [] => leadEq n []
  | c :: cs => leadEq n (c :: cs) || subScan n cs

/-- Python `needle in hay` on strings: substring containment. -/
def containsSub (needle hay : String) : Bool := subScan needle.toList hay.toList

/-- Python `sep.join(items)`. -/
def sepJoin (sep : String) : List String → String
  | [] => ""
  | [w] => w
  | w :: ws => w ++ sep ++ sepJoin sep ws

/-- Python `" ".join(words)`. -/
def spaceJoin (words : List String) : String := sepJoin " " words

/-! Section: The classification tables (src/encoder.py lines 144-178) -/

def _USAGE_BANDS : List (String × String) :=
  [("none", "inactive"), ("zero", "inactive"), ("no", "inactive"), ("inactive", "inactive"),
   ("dropping", "declining"), ("declining", "declining"), ("decreasing", "declining"),
   ("fewer", "declining"), ("less", "declining"), ("reduced", "declining"), ("low", "declining"),
   ("steady", "stable"), ("stable", "stable"), ("normal", "stable"), ("average", "stable"),
   ("increasing", "growing"), ("growing", "growing"), ("more", "growing"), ("high", "growing"),
   ("active", "growing"), ("frequent", "growing")]

def _CHURN_DRIVERS : List (String × String) :=
  [("login", "low_usage"), ("usage", "low_usage"), ("logins", "low_usage"),
   ("session", "low_usage"), ("activity", "low_usage"),
   ("support", "support_burden"), ("ticket", "support_burden"), ("case", "support_burden"),
   ("cases", "support_burden"), ("escalation", "support_burden"),
   ("defect", "defect_frustration"), ("bug", "defect_frustration"), ("crash", "defect_frustration"),
   ("error", "defect_frustration"), ("broken", "defect_frustration"), ("defects", "defect_frustration"),
   ("feature", "low_adoption"), ("adoption", "low_adoption"), ("onboard", "onboarding_stall"),
   ("billing", "billing_friction"), ("payment", "billing_friction"), ("invoice", "billing_friction"),
   ("price", "billing_friction"), ("cost", "billing_friction")]

def highTriggers : List String :=
  ["churn", "cancel", "leaving", "at risk", "critical", "red", "danger",
   "inactive", "zero logins", "no activity", "escalat"]

def mediumTriggers : List String :=
  ["declining", "dropping", "fewer", "reduced", "warning", "yellow",
   "slowing", "less active", "some risk"]

def lowTriggers : List String :=
  ["stable", "growing", "healthy", "green", "active", "engaged",
   "retained", "happy", "renew"]

/-- The `_RISK_KEYWORDS` dict in insertion order: high, then medium, then low. -/
def _RISK_KEYWORDS : List (String × List String) :=
  [("high", highTriggers), ("medium", mediumTriggers), ("low", lowTriggers)]

def _STOP_WORDS : List String :=
  ["how", "do", "i", "a", "the", "to", "is", "what", "my", "an",
   "can", "does", "it", "in", "on", "for", "with", "me", "about",
   "are", "which", "who", "will", "their", "this", "that", "of"]

/-! Section: The inference loops (src/encoder.py lines 181-202) -/

/-- The `for level, triggers in _RISK_KEYWORDS.items()` loop body. -/
def riskLoop (text : String) : List (String × List String) → String
  | [] => "medium"
  | (level, triggers) :: rest =>
      if triggers.any (fun t => containsSub t text) then level else riskLoop text rest

def _infer_risk (words : List String) : String :=
  riskLoop (spaceJoin words) _RISK_KEYWORDS

def _infer_driver : List String → String
  | [] => "low_usage"
  | w :: ws =>
      match _CHURN_DRIVERS.lookup (cleanWord w) with
      | some d => d
      | none => _infer_driver ws

def _infer_usage_band : List String → String
  | [] => "stable"
  | w :: ws =>
      match _USAGE_BANDS.lookup (cleanWord w) with
      | some d => d
      | none => _infer_usage_band ws

/-! Section: MD5 (Python `hashlib.md5`, as called on `query.encode()`) -/

/-- UTF-8 encoding of one character, as Python `str.encode()` produces. -/
def utf8EncodeChar (c : Char) : List Nat :=
  let n := c.toNat
  if n < 128 then [n]
  else if n < 2048 then [192 + n / 64, 128 + n % 64]
  else if n < 65536 then [224 + n / 4096, 128 + n / 64 % 64, 128 + n % 64]
  else [240 + n / 262144, 128 + n / 4096 % 64, 128 + n / 64 % 64, 128 + n % 64]

/-- Python `query.encode()`: the UTF-8 bytes of the string. -/
def toUTF8Bytes (s : String) : List Nat := (s.toList.map utf8EncodeChar).flatten

def w32 (n : Nat) : Nat := n % 4294967296

def rotl32 (x n : Nat) : Nat := w32 (x * 2 ^ n) + x / 2 ^ (32 - n)

def md5K : List Nat :=
  [0xd76aa478, 0xe8c7b756, 0x242070db, 0xc1bdceee,
   0xf57c0faf, 0x4787c62a, 0xa8304613, 0xfd469501,
   0x698098d8, 0x8b44f7af, 0xffff5bb1, 0x895cd7be,
   0x6b901122, 0xfd987193, 0xa679438e, 0x49b40821,
   0xf61e2562, 0xc040b340, 0x265e5a51, 0xe9b6c7aa,
   0xd62f105d, 0x02441453, 0xd8a1e681, 0xe7d3fbc8,
   0x21e1cde6, 0xc33707d6, 0xf4d50d87, 0x455a14ed,
   0xa9e3e905, 0xfcefa3f8, 0x676f02d9, 0x8d2a4c8a,
   0xfffa3942, 0x8771f681, 0x6d9d6122, 0xfde5380c,
   0xa4beea44, 0x4bdecfa9, 0xf6bb4b60, 0xbebfbc70,
   0x289b7ec6, 0xeaa127fa, 0xd4ef3085, 0x04881d05,
   0xd9d4d039, 0xe6db99e5, 0x1fa27cf8, 0xc4ac5665,
   0xf4292244, 0x432aff97, 0xab9423a7, 0xfc93a039,
   0x655b59c3, 0x8f0ccc92, 0xffeff47d, 0x85845dd1,
   0x6fa87e4f, 0xfe2ce6e0, 0xa3014314, 0x4e0811a1,
   0xf7537e82, 0xbd3af235, 0x2ad7d2bb, 0xeb86d391]

def md5S : List Nat :=
  [7, 12, 17, 22, 7, 12, 17, 22, 7, 12, 17, 22, 7, 12, 17, 22,
   5, 9, 14, 20, 5, 9, 14, 20, 5, 9, 14, 20, 5, 9, 14, 20,
   4, 11, 16, 23, 4, 11, 16, 23, 4, 11, 16, 23, 4, 11, 16, 23,
   6, 10, 15, 21, 6, 10, 15, 21, 6, 10, 15, 21, 6, 10, 15, 21]

def md5F (i b c d : Nat) : Nat :=
  if i < 16 then (b &&& c) ||| ((b ^^^ 4294967295) &&& d)
  else if i < 32 then (d &&& b) ||| ((d ^^^ 4294967295) &&& c)
  else if i < 48 then b ^^^ c ^^^ d
  else c ^^^ (b ||| (d ^^^ 4294967295))

def md5G (i : Nat) : Nat :=
  if i < 16 then i
  else if i < 32 then (5 * i + 1) % 16
  else if i < 48 then (3 * i + 5) % 16
  else (7 * i) % 16

def md5Step (M : List Nat) (st : Nat × Nat × Nat × Nat) (i : Nat) : Nat × Nat × Nat × Nat :=
  let (a, b, c, d) := st
  let f := md5F i b c d
  let tmp := w32 (a + f + md5K.getD i 0 + M.getD (md5G i) 0)
  (d, w32 (b + rotl32 tmp (md5S.getD i 0)), b, c)

/-- Group a byte list into little-endian 32-bit words. -/
def bytesToWords : List Nat → List Nat
  | b0 :: b1 :: b2 :: b3 :: rest =>
      (b0 + 256 * (b1 + 256 * (b2 + 256 * b3))) :: bytesToWords rest
  | _ => []

def md5Block (M : List Nat) (st : Nat × Nat × Nat × Nat) : Nat × Nat × Nat × Nat :=
  let (a0, b0, c0, d0) := st
  let (a, b, c, d) := (List.range 64).foldl (md5Step M) (a0, b0, c0, d0)
  (w32 (a0 + a), w32 (b0 + b), w32 (c0 + c), w32 (d0 + d))

/-- Iterate over the 64-byte blocks of the padded message (fuel-indexed). -/
def md5Loop : Nat → List Nat → Nat × Nat × Nat × Nat → Nat × Nat × Nat × Nat
  | 0, _, st => st
  | _ + 1, [], st => st
  | fuel + 1, msg, st =>
      md5Loop fuel (msg.drop 64) (md5Block (bytesToWords (msg.take 64)) st)

/-- MD5 padding: 0x80, zeros to 56 mod 64, then the bit length in 8 LE bytes. -/
def md5Pad (msg : List Nat) : List Nat :=
  let len := msg.length
  msg ++ [128] ++ List.replicate ((120 - (len + 1) % 64) % 64) 0
      ++ (List.range 8).map (fun i => len * 8 / 256 ^ i % 256)

/-- The four bytes of a 32-bit word, little-endian. -/
def wordLE (w : Nat) : List Nat :=
  [w % 256, w / 256 % 256, w / 65536 % 256, w / 16777216 % 256]

def md5Init : Nat × Nat × Nat × Nat := (0x67452301, 0xefcdab89, 0x98badcfe, 0x10325476)

/-- The digest bytes of a final state: the four words little-endian. -/
def stBytes (st : Nat × Nat × Nat × Nat) : List Nat :=
  wordLE st.1 ++ wordLE st.2.1 ++ wordLE st.2.2.1 ++ wordLE st.2.2.2

/-- The 16 digest bytes of MD5 over a byte message. -/
def md5DigestBytes (msg : List Nat) : List Nat :=
  stBytes (md5Loop (md5Pad msg).length (md5Pad msg) md5Init)

/-- Line 219: `int` of the first eight hex digits of the MD5 hex digest of the
raw query, base 16; those eight hex digits are the first four digest bytes,
read big-endian. -/
def stableId (query : String) : Nat :=
  ((md5DigestBytes (toUTF8Bytes query)).take 4).foldl (fun acc b => acc * 256 + b) 0

/-- Python formatting of a nonnegative integer with the 08d format spec: the decimal digits, zero-padded on the left to at least 8 digits. -/
def fmt08d (n : Nat) : String :=
  String.mk (List.replicate (8 - (toString n).length) '0') ++ toString n

/-! Section: encode_query (src/encoder.py lines 209-234) -/

structure QueryAttrs where
  customer_id : String
  risk_level : String
  churn_driver : String
  usage_band : String
  keywords : String
  logins : Nat
  support_cases : Nat
  defects : Nat
  feature_adoption : Nat

structure QueryResult where
  name : String
  attributes : QueryAttrs

/-- Lines 211-212: `cleaned = re.sub(...)`; `words = cleaned.split()`. -/
def queryWords (query : String) : List String := pySplit (stripPunct (pyLower query))

def encode_query (query : String) : QueryResult :=
  let words := queryWords query
  { name := "query_" ++ fmt08d (stableId query)
    attributes :=
      { customer_id := ""
        risk_level := _infer_risk words
        churn_driver := _infer_driver words
        usage_band := _infer_usage_band words
        keywords := spaceJoin (words.filter (fun w => w ∉ _STOP_WORDS))
        logins := 50
        support_cases := 2
        defects := 1
        feature_adoption := 50 } }

/-! Section: JSON-like dynamic values and entry_to_record (src/encoder.py lines 241-273) -/

inductive JVal where
  | jstr (s : String)
  | jnum (n : Int)
  | jbool (b : Bool)
  | jnull
  | jlist (xs : List JVal)

mutual

/-- Python `repr` of a value, as used inside `str` of a list. -/
def pyRepr : JVal → String
  | .jstr s => "'" ++ s ++ "'"
  | .jnum n => toString n
  | .jbool b => if b then "True" else "False"
  | .jnull => "None"
  | .jlist xs => "[" ++ sepJoin ", " (pyReprList xs) ++ "]"

def pyReprList : List JVal → List String
  | [] => []
  | x :: xs => pyRepr x :: pyReprList xs

end

/-- Python `str(v)`. -/
def pyStr : JVal → String
  | .jstr s => s
  | .jnum n => toString n
  | .jbool b => if b then "True" else "False"
  | .jnull => "None"
  | .jlist xs => "[" ++ sepJoin ", " (pyReprList xs) ++ "]"

/-- Python `s.lower()` on a dynamic value: non-strings have no `lower` method. -/
def pyLowerJ : JVal → Except String String
  | .jstr s => .ok (pyLower s)
  | _ => .error "AttributeError: lower"

/-- Collect the elements of a list if all are strings. -/
def allStrs : List JVal → Option (List String)
  | [] => some []
  | .jstr s :: rest => (allStrs rest).map (fun ss => s :: ss)
  | _ => none

/-- Python `" ".join(xs)`: every element must be a string, else TypeError. -/
def pyJoin (xs : List JVal) : Except String String :=
  match allStrs xs with
  | some ss => .ok (spaceJoin ss)
  | none => .error "TypeError: sequence item: expected str instance"

/-- A JSONL entry: Python dict access `entry.get(k, default)` becomes an
optional field per key that `entry_to_record` reads. -/
structure Entry where
  question : Option JVal := none
  customer_id : Option JVal := none
  risk_level : Option JVal := none
  churn_driver : Option JVal := none
  usage_band : Option JVal := none
  keywords : Option JVal := none
  logins : Option JVal := none
  support_cases : Option JVal := none
  defects : Option JVal := none
  feature_adoption : Option JVal := none
  response : Option JVal := none
  recommended_action : Option JVal := none

structure RecordAttrs where
  customer_id : JVal
  risk_level : JVal
  churn_driver : JVal
  usage_band : JVal
  keywords : String
  logins : JVal
  support_cases : JVal
  defects : JVal
  feature_adoption : JVal

structure RecordMeta where
  response : JVal
  risk_level : JVal
  churn_driver : JVal
  recommended_action : JVal
  original_question : String

structure Record where
  concept_text : String
  attributes : RecordAttrs
  metadata : RecordMeta

/-- One pass collapsing runs of non-lowercase-alphanumerics to a single underscore (the flag records being inside a run). -/
def slugAux : List Char → Bool → List Char
  | [], _ => []
  | c :: cs, inRun =>
      if c.isDigit || (97 ≤ c.toNat && c.toNat ≤ 122) then c :: slugAux cs false
      else if inRun then slugAux cs true
      else '_' :: slugAux cs true

/-- Line 251: collapse non-alphanumeric runs to underscores, strip them at the
ends, truncate to 40 characters (computed and discarded by the source). -/
def pySlug (question : String) : String :=
  let collapsed := slugAux question.toList false
  let stripped := ((collapsed.dropWhile (· == '_')).reverse.dropWhile (· == '_')).reverse
  String.mk (stripped.take 40)

/-- Lines 248-249: `kw_list = entry.get("keywords", [])` followed by
`" ".join(kw_list) if isinstance(kw_list, list) else str(kw_list)`. -/
def kwStrOf : JVal → Except String String
  | .jlist xs => pyJoin xs
  | v => .ok (pyStr v)

def entry_to_record (entry : Entry) : Except String Record :=
  match pyLowerJ (entry.question.getD (.jstr "")) with
  | .error e => .error e
  | .ok question =>
    let customer_id := entry.customer_id.getD (.jstr "")
    let risk := entry.risk_level.getD (.jstr "medium")
    let driver := entry.churn_driver.getD (.jstr "low_usage")
    let usage_band := entry.usage_band.getD (.jstr "stable")
    match kwStrOf (entry.keywords.getD (.jlist [])) with
    | .error e => .error e
    | .ok kw_str =>
      let _slug := pySlug question
      .ok { concept_text := question
            attributes :=
              { customer_id := customer_id
                risk_level := risk
                churn_driver := driver
                usage_band := usage_band
                keywords := kw_str
                logins := entry.logins.getD (.jnum 50)
                support_cases := entry.support_cases.getD (.jnum 2)
                defects := entry.defects.getD (.jnum 1)
                feature_adoption := entry.feature_adoption.getD (.jnum 50) }
            metadata :=
              { response := entry.response.getD (.jstr "")
                risk_level := risk
                churn_driver := driver
                recommended_action := entry.recommended_action.getD (.jstr "")
                original_question := question } }

example (q : String) : (encode_query q).attributes.logins = 50 := rfl
example (q : String) : (encode_query q).attributes.customer_id = "" := rfl

/-! Section: Definitions used by the claim statements -/

/-- First-match scan: the value bound to the first word whose cleaned form is a
table key, scanning words in input order. -/
def firstMatch (table : List (String × String)) (words : List String) : Option String :=
  words.findSome? (fun w => table.lookup (cleanWord w))

def isOkE (r : Except String Record) : Bool :=
  match r with
  | .ok _ => true
  | .error _ => false

/-- The question field, when present, is a string (so `.lower()` succeeds). -/
def strOrMissing : Option JVal → Bool
  | none => true
  | some (.jstr _) => true
  | some _ => false

/-- The keywords field, when a list, holds only strings (so `join` succeeds). -/
def keywordsJoinable : Option JVal → Bool
  | some (.jlist xs) => (allStrs xs).isSome
  | _ => true

/-- An entry with keywords ["a", "b"] and every other field missing. -/
def entryKW : Entry := { keywords := some (.jlist [.jstr "a", .jstr "b"]) }

/-- The record entry_to_record produces for entryKW. -/
def recKW : Record :=
  { concept_text := ""
    attributes :=
      { customer_id := .jstr ""
        risk_level := .jstr "medium"
        churn_driver := .jstr "low_usage"
        usage_band := .jstr "stable"
        keywords := "a b"
        logins := .jnum 50
        support_cases := .jnum 2
        defects := .jnum 1
        feature_adoption := .jnum 50 }
    metadata :=
      { response := .jstr ""
        risk_level := .jstr "medium"
        churn_driver := .jstr "low_usage"
        recommended_action := .jstr ""
        original_question := "" } }

/-- An entry with an explicit risk level and question, for the C10 witness. -/
def entryHigh : Entry :=
  { question := some (.jstr "Why churn?"), risk_level := some (.jstr "high") }

/-- The record entry_to_record produces for entryHigh. -/
def recHigh : Record :=
  { concept_text := "why churn?"
    attributes :=
      { customer_id := .jstr ""
        risk_level := .jstr "high"
        churn_driver := .jstr "low_usage"
        usage_band := .jstr "stable"
        keywords := ""
        logins := .jnum 50
        support_cases := .jnum 2
        defects := .jnum 1
        feature_adoption := .jnum 50 }
    metadata :=
      { response := .jstr ""
        risk_level := .jstr "high"
        churn_driver := .jstr "low_usage"
        recommended_action := .jstr ""
        original_question := "why churn?" } }

/-! Section: Helper lemmas for the claims -/

theorem str_length_append (s t : String) : (s ++ t).length = s.length + t.length := by
  cases s with
  | mk a =>
    cases t with
    | mk b =>
      show (a ++ b).length = a.length + b.length
      exact List.length_append a b

theorem fmt08d_min_length (n : Nat) : 8 ≤ (fmt08d n).length := by
  unfold fmt08d
  rw [str_length_append]
  show 8 ≤ (List.replicate (8 - (toString n).length) '0').length + (toString n).length
  rw [List.length_replicate]
  omega

theorem mem_wordLE_lt (w b : Nat) (h : b ∈ wordLE w) : b < 256 := by
  simp only [wordLE, List.mem_cons, List.not_mem_nil, or_false] at h
  rcases h with h | h | h | h <;> subst h <;> exact Nat.mod_lt _ (by norm_num)

theorem mem_stBytes_lt (st : Nat × Nat × Nat × Nat) (b : Nat) (h : b ∈ stBytes st) : b < 256 := by
  simp only [stBytes, List.mem_append] at h
  rcases h with ((h | h) | h) | h <;> exact mem_wordLE_lt _ _ h

theorem foldl_base256_lt (l : List Nat) (hl : ∀ b ∈ l, b < 256) (a : Nat) :
    l.foldl (fun acc b => acc * 256 + b) a < (a + 1) * 256 ^ l.length := by
  induction l generalizing a with
  | nil => simp
  | cons b t ih =>
    have hb : b < 256 := hl b (List.mem_cons_self b t)
    have ht : ∀ x ∈ t, x < 256 := fun x hx => hl x (List.mem_cons_of_mem b hx)
    have h1 : t.foldl (fun acc x => acc * 256 + x) (a * 256 + b) <
        (a * 256 + b + 1) * 256 ^ t.length := ih ht (a * 256 + b)
    have h2 : (a * 256 + b + 1) * 256 ^ t.length ≤ ((a + 1) * 256) * 256 ^ t.length :=
      Nat.mul_le_mul_right _ (by omega)
    calc (b :: t).foldl (fun acc x => acc * 256 + x) a
        = t.foldl (fun acc x => acc * 256 + x) (a * 256 + b) := rfl
      _ < ((a + 1) * 256) * 256 ^ t.length := lt_of_lt_of_le h1 h2
      _ = (a + 1) * 256 ^ (b :: t).length := by rw [List.length_cons]; ring

theorem stableId_lt (q : String) : stableId q < 4294967296 := by
  unfold stableId
  have hmem : ∀ b ∈ (md5DigestBytes (toUTF8Bytes q)).take 4, b < 256 := by
    intro b hb
    exact mem_stBytes_lt _ b (List.take_subset 4 _ hb)
  have hlen : ((md5DigestBytes (toUTF8Bytes q)).take 4).length ≤ 4 := by
    rw [List.length_take]
    exact min_le_left 4 _
  have h1 := foldl_base256_lt _ hmem 0
  have h2 : (256 : Nat) ^ ((md5DigestBytes (toUTF8Bytes q)).take 4).length ≤ 256 ^ 4 :=
    Nat.pow_le_pow_right (by norm_num) hlen
  calc ((md5DigestBytes (toUTF8Bytes q)).take 4).foldl (fun acc b => acc * 256 + b) 0
      < (0 + 1) * 256 ^ ((md5DigestBytes (toUTF8Bytes q)).take 4).length := h1
    _ = 256 ^ ((md5DigestBytes (toUTF8Bytes q)).take 4).length := by rw [Nat.zero_add, Nat.one_mul]
    _ ≤ 256 ^ 4 := h2
    _ ≤ 4294967296 := by norm_num

theorem infer_driver_eq_firstMatch (ws : List String) :
    _infer_driver ws = (firstMatch _CHURN_DRIVERS ws).getD "low_usage" := by
  induction ws with
  | nil => rfl
  | cons w t ih =>
    simp only [_infer_driver, firstMatch, List.findSome?_cons]
    cases h : _CHURN_DRIVERS.lookup (cleanWord w) with
    | none => simpa [h] using ih
    | some d => simp [h]

theorem infer_usage_eq_firstMatch (ws : List String) :
    _infer_usage_band ws = (firstMatch _USAGE_BANDS ws).getD "stable" := by
  induction ws with
  | nil => rfl
  | cons w t ih =>
    simp only [_infer_usage_band, firstMatch, List.findSome?_cons]
    cases h : _USAGE_BANDS.lookup (cleanWord w) with
    | none => simpa [h] using ih
    | some d => simp [h]

/-! Section: Claim theorems -/

/-- Claim C1: risk inference tests the trigger lists in the fixed priority order
high, then medium, then low, over the space-joined token string, returning the
first level with a matching trigger substring and defaulting to "medium";
in particular any input whose joined token text contains the high-risk trigger
"churn" classifies as "high", regardless of any low-risk trigger present. -/
theorem risk_checked_high_then_medium_then_low (q : String) :
    ((encode_query q).attributes.risk_level =
      if highTriggers.any (fun t => containsSub t (spaceJoin (queryWords q))) then "high"
      else if mediumTriggers.any (fun t => containsSub t (spaceJoin (queryWords q))) then "medium"
      else if lowTriggers.any (fun t => containsSub t (spaceJoin (queryWords q))) then "low"
      else "medium")
    ∧ (containsSub "churn" (spaceJoin (queryWords q)) = true →
        (encode_query q).attributes.risk_level = "high") := by
  constructor
  · show _infer_risk (queryWords q) = _
    simp only [_infer_risk, _RISK_KEYWORDS, riskLoop]
  · intro h
    show _infer_risk (queryWords q) = _
    have hany : highTriggers.any (fun t => containsSub t (spaceJoin (queryWords q))) = true :=
      List.any_eq_true.mpr ⟨"churn", by decide, h⟩
    simp only [_infer_risk, _RISK_KEYWORDS, riskLoop, hany, if_true]

theorem risk_checked_witness :
    (encode_query "churn stable").attributes.risk_level = "high" :=
  (risk_checked_high_then_medium_then_low "churn stable").2 (by decide)

/-- Claim C2 counterexample: on the empty string the hash-derived number has ten
decimal digits, so the name is not "query_" followed by exactly eight digits. -/
theorem query_name_ten_digits_on_empty :
    (encode_query "").name = "query_3558706393" ∧ ¬((encode_query "").name.length = 14) :=
  ⟨rfl, by decide⟩

/-- Claim C2 (amended): the name is "query_" followed by the decimal form of the
32-bit value taken from the first eight hex digits of the MD5 digest of the raw
input, zero-padded to at least eight digits (so eight to ten digits). -/
theorem query_name_hash_format (q : String) :
    (encode_query q).name = "query_" ++ fmt08d (stableId q)
    ∧ stableId q < 4294967296
    ∧ 8 ≤ (fmt08d (stableId q)).length :=
  ⟨rfl, stableId_lt q, fmt08d_min_length (stableId q)⟩

/-- Claim C3: encode_query is deterministic — the same input string always
yields the same name and the same attribute mapping. -/
theorem encode_query_deterministic (q1 q2 : String) (h : q1 = q2) :
    (encode_query q1).name = (encode_query q2).name
    ∧ (encode_query q1).attributes = (encode_query q2).attributes := by
  subst h
  exact ⟨rfl, rfl⟩

theorem encode_query_deterministic_witness :
    (encode_query "churn risk").name = (encode_query "churn risk").name
    ∧ (encode_query "churn risk").attributes = (encode_query "churn risk").attributes :=
  encode_query_deterministic "churn risk" "churn risk" rfl

/-- Claim C4 counterexample: an entry whose keywords field is the list [1]
makes entry_to_record raise (Python TypeError from `" ".join([1])`), so the
function is not total with string coercion for every unexpected keywords type. -/
theorem entry_keywords_nonstring_list_raises :
    isOkE (entry_to_record { keywords := some (.jlist [.jnum 1]) }) = false := rfl

/-- Claim C4 (amended): entry_to_record substitutes defaults for missing fields
and stringifies a non-list unexpected keywords value, and it returns a record
without raising whenever the question field (if present) is a string and the
keywords field, when a list, contains only strings. -/
theorem entry_to_record_total_when_typed (e : Entry)
    (hq : strOrMissing e.question = true) (hk : keywordsJoinable e.keywords = true) :
    isOkE (entry_to_record e) = true := by
  have hQ : ∃ s, pyLowerJ (e.question.getD (.jstr "")) = .ok s := by
    cases hq' : e.question with
    | none => exact ⟨pyLower "", rfl⟩
    | some v =>
      cases v with
      | jstr s => exact ⟨pyLower s, rfl⟩
      | jnum n => rw [hq'] at hq; exact absurd hq (by simp [strOrMissing])
      | jbool b => rw [hq'] at hq; exact absurd hq (by simp [strOrMissing])
      | jnull => rw [hq'] at hq; exact absurd hq (by simp [strOrMissing])
      | jlist xs => rw [hq'] at hq; exact absurd hq (by simp [strOrMissing])
  obtain ⟨qs, hQ⟩ := hQ
  have hK : ∃ ks, kwStrOf (e.keywords.getD (.jlist [])) = .ok ks := by
    cases hk' : e.keywords with
    | none => exact ⟨spaceJoin [], rfl⟩
    | some v =>
      cases v with
      | jlist xs =>
        rw [hk'] at hk
        simp only [keywordsJoinable] at hk
        cases hall : allStrs xs with
        | some ss => exact ⟨spaceJoin ss, by simp [kwStrOf, pyJoin, hall]⟩
        | none => rw [hall] at hk; exact absurd hk (by simp)
      | jstr s => exact ⟨pyStr (.jstr s), rfl⟩
      | jnum n => exact ⟨pyStr (.jnum n), rfl⟩
      | jbool b => exact ⟨pyStr (.jbool b), rfl⟩
      | jnull => exact ⟨pyStr .jnull, rfl⟩
  obtain ⟨ks, hK⟩ := hK
  simp only [entry_to_record, hQ, hK, isOkE]

theorem entry_to_record_total_witness :
    strOrMissing (Entry.question { keywords := some (.jnum 5) }) = true
    ∧ keywordsJoinable (Entry.keywords ({ keywords := some (.jnum 5) } : Entry)) = true
    ∧ isOkE (entry_to_record { keywords := some (.jnum 5) }) = true :=
  ⟨rfl, rfl, entry_to_record_total_when_typed { keywords := some (.jnum 5) } rfl rfl⟩

/-- Claim C5: for every input string the numeric attributes of encode_query are
the fixed neutral defaults and customer_id is empty, whatever the input says. -/
theorem query_numeric_defaults (q : String) :
    (encode_query q).attributes.logins = 50
    ∧ (encode_query q).attributes.support_cases = 2
    ∧ (encode_query q).attributes.defects = 1
    ∧ (encode_query q).attributes.feature_adoption = 50
    ∧ (encode_query q).attributes.customer_id = "" :=
  ⟨rfl, rfl, rfl, rfl, rfl⟩

/-- Claim C6: churn_driver is the table value of the first token (in input
order, each stripped of non-alphabetic characters) present in the
word-to-driver table, defaulting to "low_usage"; usage_band is the same
first-match scan over the word-to-usage-band table, defaulting to "stable". -/
theorem driver_and_usage_first_token_match (q : String) :
    (encode_query q).attributes.churn_driver
      = (firstMatch _CHURN_DRIVERS (queryWords q)).getD "low_usage"
    ∧ (encode_query q).attributes.usage_band
      = (firstMatch _USAGE_BANDS (queryWords q)).getD "stable" :=
  ⟨infer_driver_eq_firstMatch (queryWords q), infer_usage_eq_firstMatch (queryWords q)⟩

/-- Claim C10: the record metadata mirrors the risk_level and churn_driver of
the attributes, and original_question equals concept_text. -/
theorem metadata_mirrors_attributes (e : Entry) (r : Record)
    (h : entry_to_record e = .ok r) :
    r.metadata.risk_level = r.attributes.risk_level
    ∧ r.metadata.churn_driver = r.attributes.churn_driver
    ∧ r.metadata.original_question = r.concept_text := by
  unfold entry_to_record at h
  cases hpq : pyLowerJ (e.question.getD (.jstr "")) with
  | error s => rw [hpq] at h; cases h
  | ok qs =>
    rw [hpq] at h
    cases hkw : kwStrOf (e.keywords.getD (.jlist [])) with
    | error s => rw [hkw] at h; cases h
    | ok ks =>
      rw [hkw] at h
      cases h
      exact ⟨rfl, rfl, rfl⟩

/-- Claim C7: entry_to_record takes each numeric field verbatim when present
and otherwise defaults it (logins 50, support_cases 2, defects 1,
feature_adoption 50), with keyword lists of strings joined by single
spaces in order. -/
theorem record_numeric_defaults_verbatim (e : Entry) (r : Record)
    (h : entry_to_record e = .ok r) :
    (e.logins = none → r.attributes.logins = .jnum 50)
    ∧ (∀ v, e.logins = some v → r.attributes.logins = v)
    ∧ (e.support_cases = none → r.attributes.support_cases = .jnum 2)
    ∧ (∀ v, e.support_cases = some v → r.attributes.support_cases = v)
    ∧ (e.defects = none → r.attributes.defects = .jnum 1)
    ∧ (∀ v, e.defects = some v → r.attributes.defects = v)
    ∧ (e.feature_adoption = none → r.attributes.feature_adoption = .jnum 50)
    ∧ (∀ v, e.feature_adoption = some v → r.attributes.feature_adoption = v)
    ∧ (∀ xs ss, e.keywords = some (.jlist xs) → allStrs xs = some ss →
        r.attributes.keywords = spaceJoin ss) := by
  unfold entry_to_record at h
  cases hpq : pyLowerJ (e.question.getD (.jstr "")) with
  | error s => rw [hpq] at h; cases h
  | ok qs =>
    rw [hpq] at h
    cases hkw : kwStrOf (e.keywords.getD (.jlist [])) with
    | error s => rw [hkw] at h; cases h
    | ok ks =>
      rw [hkw] at h
      cases h
      refine ⟨?_, ?_, ?_, ?_, ?_, ?_, ?_, ?_, ?_⟩
      · intro hnone
        show e.logins.getD (.jnum 50) = .jnum 50
        rw [hnone]
        rfl
      · intro v hv
        show e.logins.getD (.jnum 50) = v
        rw [hv]
        rfl
      · intro hnone
        show e.support_cases.getD (.jnum 2) = .jnum 2
        rw [hnone]
        rfl
      · intro v hv
        show e.support_cases.getD (.jnum 2) = v
        rw [hv]
        rfl
      · intro hnone
        show e.defects.getD (.jnum 1) = .jnum 1
        rw [hnone]
        rfl
      · intro v hv
        show e.defects.getD (.jnum 1) = v
        rw [hv]
        rfl
      · intro hnone
        show e.feature_adoption.getD (.jnum 50) = .jnum 50
        rw [hnone]
        rfl
      · intro v hv
        show e.feature_adoption.getD (.jnum 50) = v
        rw [hv]
        rfl
      · intro xs ss hxs hss
        show ks = spaceJoin ss
        rw [hxs] at hkw
        simp only [Option.getD_some, kwStrOf, pyJoin, hss] at hkw
        exact (Except.ok.inj hkw).symm

theorem record_numeric_defaults_verbatim_witness :
    recKW.attributes.logins = JVal.jnum 50 ∧ recKW.attributes.keywords = "a b" :=
  ⟨(record_numeric_defaults_verbatim entryKW recKW rfl).1 rfl,
   (record_numeric_defaults_verbatim entryKW recKW rfl).2.2.2.2.2.2.2.2
     [JVal.jstr "a", JVal.jstr "b"] ["a", "b"] rfl rfl⟩

/-- Claim C8: the keywords attribute joins, with single spaces and in order,
exactly the tokens of the normalized input that are not stop words; on the
input "how do I find the customers at risk" the keywords are
"find customers at risk", free of "how", "do" and "the". -/
theorem keywords_drop_stop_words (q : String) :
    (encode_query q).attributes.keywords
      = spaceJoin ((queryWords q).filter (fun w => w ∉ _STOP_WORDS))
    ∧ (encode_query "how do I find the customers at risk").attributes.keywords
      = "find customers at risk"
    ∧ containsSub "how"
        ((encode_query "how do I find the customers at risk").attributes.keywords) = false
    ∧ containsSub "do"
        ((encode_query "how do I find the customers at risk").attributes.keywords) = false
    ∧ containsSub "the"
        ((encode_query "how do I find the customers at risk").attributes.keywords) = false :=
  ⟨rfl, by decide, by decide, by decide, by decide⟩

/-- Claim C9: the literal scenario from the spec: the inactive-with-zero-logins
question classifies as high risk, inactive usage band, low_usage driver. -/
theorem inactive_zero_logins_scenario :
    (encode_query "customer is completely inactive with zero logins").attributes.risk_level
      = "high"
    ∧ (encode_query "customer is completely inactive with zero logins").attributes.usage_band
      = "inactive"
    ∧ (encode_query "customer is completely inactive with zero logins").attributes.churn_driver
      = "low_usage" :=
  ⟨by decide, by decide, by decide⟩

theorem metadata_mirrors_attributes_witness :
    recHigh.metadata.risk_level = recHigh.attributes.risk_level
    ∧ recHigh.metadata.churn_driver = recHigh.attributes.churn_driver
    ∧ recHigh.metadata.original_question = recHigh.concept_text :=
  metadata_mirrors_attributes entryHigh recHigh rfl

end ModelChurn
